import Mathlib

/-!
# Avalanche Analytics dashboard — verification of the live-update channel

Shallow embedding of the reconnect/fallback logic, the update dispatch and
the search/feed helpers of the `Avalanche-Analytics-Agentic-AI` repository.
The repository contains several near-duplicate rewrites of the same
dashboard; where their behaviour differs the variant is kept in its own
namespace:

* `Yatish`   — `src/yatish/script.js`
* `ScriptJs` — `src/script.js` (the `src/unnamed/part_000` / `part_001`
  variants share its reconnect structure: linear delay `3000·k`, bound 5)

Machine integers do not overflow in any of the modelled code paths
(delays, counters and vote counts are small), so `Nat`/`Int`/`ℚ` are used
directly.  Absent/`undefined` JSON fields are modelled with `Option`;
JavaScript truthiness checks on numbers (`x || y`, `if (x)`) are modelled
explicitly with `= 0` tests where the source relies on them.
-/

namespace AvalancheAnalytics

/-- `needle.isPrefixOf hay` on character lists, written out so that the
behaviour of JavaScript `String.prototype.includes` can be embedded
executably (used by the constituency search). -/
def charsPrefix : List Char → List Char → Bool
  | [], _ => true
  | _ :: _, [] => false
  | a :: as, b :: bs => a == b && charsPrefix as bs

/-- `occursIn needle hay`: does `needle` occur contiguously in `hay`?
Embedding of JavaScript `hay.includes(needle)` on the character level. -/
def occursIn (needle : List Char) : List Char → Bool
  | [] => charsPrefix needle []
  | c :: rest => charsPrefix needle (c :: rest) || occursIn needle rest

/-- JavaScript `hay.includes(needle)` on Lean strings. -/
def jsIncludes (hay needle : String) : Bool :=
  occursIn needle.toList hay.toList

/-- JavaScript `s.trim()`: strip whitespace from both ends, written as an
executable character-list computation. -/
def jsTrim (s : String) : String :=
  ⟨((s.toList.dropWhile Char.isWhitespace).reverse.dropWhile
      Char.isWhitespace).reverse⟩

/-! ## Shared payload shapes

Record types for the JSON payloads that both dashboard variants exchange
with the backend.  `Option` marks fields that may be absent. -/

/-- A candidate record in `election_data.candidates`. -/
structure Candidate where
  name : String
  votes : Nat
  percentage : ℚ
deriving DecidableEq

/-- An AI insight record (`title`, `description`, `confidence` in `[0,1]`,
`importance` in `[0,10]`); `confidence`/`importance` may be absent. -/
structure Insight where
  title : String
  description : String
  confidence : Option ℚ
  importance : Option Nat
deriving DecidableEq

/-- `analytics.ai_predictions` — only the `confidence` field is read. -/
structure Predictions where
  confidence : Option ℚ
deriving DecidableEq

/-- `election_data` sub-tree; only `current_turnout` and `candidates` are
read by the modelled handlers. -/
structure ElectionData where
  current_turnout : Option Nat
  candidates : Option (List Candidate)
deriving DecidableEq

/-- `network_stats` payload used by the blockchain ticker. -/
structure NetworkStats where
  live_tps : Option ℚ
  avg_fee : Option String
deriving DecidableEq

namespace Yatish

/-! ## `src/yatish/script.js` — WebSocketManager reconnect logic

```js
handleConnectionError() {
  connectionManager.updateConnectionStatus('connecting');
  this.reconnectAttempts++;
  const delay = Math.min(this.maxDelay, Math.pow(2, this.reconnectAttempts) * 1000);
  setTimeout(() => this.connect(), delay);
  if (this.reconnectAttempts % 2 === 0) connectionManager.toast(...);
  if (this.reconnectAttempts > 6) this.startPollingFallback();
}
```
with `this.maxDelay = 30000` and `this.reconnectAttempts = 0` initially.
Note that the reconnect `setTimeout` is scheduled unconditionally, and the
polling fallback starts only once the counter exceeds `6`. -/

/-- `maxDelay` of the yatish `WebSocketManager`. -/
def maxDelay : Nat := 30000

/-- The reconnect delay computed for counter value `a`:
`Math.min(this.maxDelay, Math.pow(2, a) * 1000)`. -/
def yDelay (a : Nat) : Nat := min maxDelay (2 ^ a * 1000)

/-- Mutable state of the yatish `WebSocketManager` relevant to
reconnection: the failure counter and whether `startPollingFallback` has
been invoked. -/
structure YWSState where
  reconnectAttempts : Nat
  pollingStarted : Bool
deriving DecidableEq

/-- `handleConnectionError`: increments the counter, computes the backoff
delay, always schedules a reconnect (`setTimeout(() => this.connect(), delay)`),
and starts the polling fallback when the counter exceeds `6`.  Returns the
new state, the scheduled delay in milliseconds, and whether a push
reconnect was scheduled (always `true` in this variant). -/
def handleConnectionError (s : YWSState) : YWSState × Nat × Bool :=
  let a := s.reconnectAttempts + 1
  let delay := yDelay a
  (⟨a, s.pollingStarted || decide (a > 6)⟩, delay, true)

/-- State after `n` consecutive connection failures starting from a fresh
manager (`reconnectAttempts = 0`, no polling). -/
def runFailures : Nat → YWSState
  | 0 => ⟨0, false⟩
  | n + 1 => (handleConnectionError (runFailures n)).1

/-! ## `src/yatish/script.js` — APIService retry loop

```js
async request(endpoint, options = {}) {
  let attempt = 0;
  while (attempt <= this.maxRetries) {        // maxRetries = 5
    try { ...fetch...; return await res.json(); }
    catch (err) {
      attempt++;
      if (attempt > this.maxRetries) { toast(...); throw err; }
      const delay = Math.min(this.maxDelay, Math.pow(2, attempt) * 500);
      await new Promise(r => setTimeout(r, delay));
    }
  }
}
```
The outcome of each `fetch` is supplied as a list: `some v` is a
successful response with payload `v`, `none` a failure.  `requestGo`
returns the final result (`none` models the re-thrown error after
exhaustion) together with the list of back-off delays that were slept. -/

/-- `maxRetries` of the yatish `APIService`. -/
def maxRetries : Nat := 5

/-- The retry delay slept after the `a`-th failed fetch:
`Math.min(this.maxDelay, Math.pow(2, a) * 500)`. -/
def requestDelay (a : Nat) : Nat := min maxDelay (2 ^ a * 500)

/-- One unrolling of the `while (attempt <= maxRetries)` loop of
`APIService.request`, starting at counter value `attempt` and consuming
one fetch outcome per iteration. -/
def requestGo (attempt : Nat) : List (Option α) → Option α × List Nat
  | [] => (none, [])
  | o :: rest =>
    match o with
    | some v => (some v, [])
    | none =>
      let a := attempt + 1
      if a > maxRetries then (none, [])
      else
        let d := requestDelay a
        let r := requestGo a rest
        (r.1, d :: r.2)

/-- `APIService.request` given the sequence of fetch outcomes: starts the
loop with `attempt = 0`. -/
def request (outcomes : List (Option α)) : Option α × List Nat :=
  requestGo 0 outcomes

/-! ## `src/yatish/script.js` — polling fallback tick

`startPollingFallback` installs a 10-second `setInterval` whose callback
awaits `Promise.allSettled` of three pulls (enhanced analytics, live
predictions, live transactions) and dispatches only the fulfilled ones:

```js
if (analytics.status === 'fulfilled')
  this.handleVotingUpdate({ election_data: ..., analytics: ..., ai_insights: ... });
if (transactions.status === 'fulfilled')
  this.updateNetworkStats(transactions.value.network_stats || {});
```
The predictions pull is fetched but never used.  A rejected pull (a
`request` whose retries are exhausted) is silently ignored by
`allSettled`. -/

/-- The fixed polling interval installed by `startPollingFallback`
(`setInterval(..., 10000)`). -/
def pollIntervalMs : Nat := 10000

/-- `analytics.live_analytics` sub-tree as read by the yatish handlers. -/
structure YLiveAnalytics where
  ai_predictions : Option Predictions
  anomalies_detected : Option Nat
deriving DecidableEq

/-- Response of `/api/analytics/enhanced` as consumed by the poll tick. -/
structure EnhancedAnalyticsResp where
  election_data : Option ElectionData
  live_analytics : Option YLiveAnalytics
  ai_insights : Option (List Insight)
deriving DecidableEq

/-- Response of `/api/live/transactions` as consumed by the poll tick. -/
structure TransactionsResp where
  network_stats : Option NetworkStats
deriving DecidableEq

/-- The payload handed to `handleVotingUpdate` by the poll tick. -/
structure YVotingPayload where
  election_data : Option ElectionData
  analytics : Option YLiveAnalytics
  ai_insights : Option (List Insight)
deriving DecidableEq

/-- Log of dispatches performed by poll ticks: every `handleVotingUpdate`
payload and every `updateNetworkStats` argument, in order. -/
structure PollLog where
  votingDispatches : List YVotingPayload
  statsDispatches : List NetworkStats
deriving DecidableEq

/-- One tick of the polling-fallback interval.  Each argument is the
settled result of the corresponding pull: `some v` fulfilled, `none`
rejected (its retries were exhausted inside `request`).  The predictions
pull is destructured but unused in the source, hence the unused
argument. -/
def pollTick (analytics : Option EnhancedAnalyticsResp)
    (_predictions : Option Unit) (transactions : Option TransactionsResp)
    (s : PollLog) : PollLog :=
  let s1 :=
    match analytics with
    | some v =>
      { s with votingDispatches := s.votingDispatches ++
          [⟨v.election_data, v.live_analytics, v.ai_insights⟩] }
    | none => s
  match transactions with
  | some t =>
    { s1 with statsDispatches := s1.statsDispatches ++
        [t.network_stats.getD ⟨none, none⟩] }
  | none => s1

end Yatish

namespace ScriptJs

/-! ## `src/script.js` — WebSocketManager

```js
handleReconnect() {
  if (this.retries < this.maxRetries) {        // maxRetries = 5
    this.retries++;
    setTimeout(() => this.connect(), 3000 * this.retries);
  } else {
    console.warn('Max WS retries reached; start fallback polling');
    connectionManager.updateStatus('disconnected');
    this.fallback();
  }
}
```
`connect()` is called once from `VotingAnalyticsApp.init` and afterwards
only from the `setTimeout` scheduled above; `handleReconnect` runs only
from the `connect_error` handler of an in-flight attempt.  The transport
is modelled as resolving each attempt exactly once (success, error or the
20 s timeout, the latter surfacing as `connect_error`). -/

/-- `maxRetries` of the `WebSocketManager`. -/
def maxRetries : Nat := 5

/-- Event-loop state of the `WebSocketManager`: the number of connection
attempts currently in flight, the number of pending reconnect timers, the
retry counter, and whether fallback polling has been started. -/
structure WSState where
  inFlight : Nat
  timers : Nat
  retries : Nat
  polling : Bool
deriving DecidableEq

/-- `handleReconnect`: below the bound, increment the counter and schedule
a reconnect timer; at the bound, start fallback polling and schedule
nothing. -/
def handleReconnect (s : WSState) : WSState :=
  if s.retries < maxRetries then
    { s with retries := s.retries + 1, timers := s.timers + 1 }
  else
    { s with polling := true }

/-- Messages emitted by the `connect` success handler:
`this.socket.emit('request_live_data'); this.socket.emit('request_3d_data');`
(`request_live_data` is the initial-full-snapshot request). -/
def onConnectEmits : List String := ["request_live_data", "request_3d_data"]

/-- The `connect` success handler: resets the retry counter to zero and
emits the initial data requests. -/
def onConnect (s : WSState) : WSState × List String :=
  ({ s with retries := 0 }, onConnectEmits)

/-- Events the event loop can deliver to the manager: a pending reconnect
timer fires (running `connect()`), or an in-flight attempt resolves with
success or with error/timeout. -/
inductive WSEvent
  | timerFire
  | resolveSuccess
  | resolveError
deriving DecidableEq

/-- One event-loop step.  `none` means the event cannot occur in that
state (no pending timer, or no attempt to resolve): resolution events are
only delivered for attempts actually in flight, and each attempt resolves
exactly once. -/
def stepE : WSEvent → WSState → Option WSState
  | .timerFire, s =>
    if s.timers = 0 then none
    else some { s with timers := s.timers - 1, inFlight := s.inFlight + 1 }
  | .resolveSuccess, s =>
    if s.inFlight = 0 then none
    else some { (onConnect s).1 with inFlight := s.inFlight - 1 }
  | .resolveError, s =>
    if s.inFlight = 0 then none
    else some (handleReconnect { s with inFlight := s.inFlight - 1 })

/-- Run a sequence of event-loop events from a state; `none` if some event
in the sequence could not occur. -/
def runWS : List WSEvent → WSState → Option WSState
  | [], s => some s
  | e :: rest, s =>
    match stepE e s with
    | some s1 => runWS rest s1
    | none => none

/-- State right after `VotingAnalyticsApp.init` called `connect()` once:
one attempt in flight, no timer, zero retries, no polling. -/
def wsInit : WSState := ⟨1, 0, 0, false⟩

/-- The at-most-one-attempt invariant: attempts in flight plus pending
reconnect timers never exceed one. -/
def wsInv (s : WSState) : Prop := s.inFlight + s.timers ≤ 1

/-! ## `src/script.js` — SearchManager

```js
search(query) {
  query = query.trim();
  if (query.length < 2) { this.hideResults(); return; }
  const results = this.constituencies
    .filter(c => c.toLowerCase().includes(query.toLowerCase())).slice(0, 10);
  this.showResults(results, 'Results');
}
```
A hidden results panel is modelled as the empty result list. -/

/-- `SearchManager.search`: trims the query, hides results for queries of
fewer than two characters, otherwise shows the first ten case-insensitive
substring matches. -/
def search (constituencies : List String) (query : String) : List String :=
  let q := jsTrim query
  if q.length < 2 then []
  else
    (constituencies.filter
      (fun c => jsIncludes c.toLower q.toLower)).take 10

/-! ## `src/script.js` — VotingAnalyticsApp update handlers

Stored display state touched by `handleVotingUpdate` (in the initialized
state, `this.initialized === true`, with the demographic charts created):

* `this.liveVoteCount` / the `liveVoteCount` element — `updateVotes`;
* the two insight containers — `updateAIInsights` (early-returns on an
  empty list);
* the four stat tiles — `updateAnalytics` (each tile is recomputed from
  the incoming `analytics` sub-tree alone, with `'0'` / `'N/A'` defaults
  when fields are missing);
* the three demographic charts — `updateDemographicChartsData`
  (each chart's data is recomputed from the incoming `demographics`
  sub-tree alone, `{}` defaults when sub-fields are missing). -/

/-- The `enhanced_voting_update` payload shape read by
`VotingAnalyticsApp.handleVotingUpdate`. -/
structure AnalyticsDemoBuckets where
  counts : Option (List (String × Nat))
deriving DecidableEq

/-- `demographics.locations` — only `top_10_counts` is read. -/
structure AnalyticsDemoLocations where
  top_10_counts : Option (List (String × Nat))
deriving DecidableEq

/-- `analytics.demographics` sub-tree. -/
structure Demographics where
  age_groups : Option AnalyticsDemoBuckets
  gender : Option AnalyticsDemoBuckets
  locations : Option AnalyticsDemoLocations
deriving DecidableEq

/-- `analytics` sub-tree as read by `updateAnalytics` and the demographic
chart update. -/
structure AnalyticsData where
  candidates : Option (List Candidate)
  ai_insights : Option (List Insight)
  ai_predictions : Option Predictions
  demographics : Option Demographics
deriving DecidableEq

/-- The full `enhanced_voting_update` payload. -/
structure VotingPayload where
  election_data : Option ElectionData
  ai_insights : Option (List Insight)
  analytics : Option AnalyticsData
deriving DecidableEq

/-- Rendered content of the four stat tiles after `updateAnalytics`:
`none` renders as `'N/A'`. -/
structure AnalyticsDisplay where
  totalVotes : Nat
  totalInsights : Nat
  avgConfidencePct : Option ℤ
  highImportance : Option Nat
deriving DecidableEq

/-- Rendered data of the three demographic charts. -/
structure DemDisplay where
  ageCounts : List (String × Nat)
  genderCounts : List (String × Nat)
  locationCounts : List (String × Nat)
deriving DecidableEq

/-- Stored display state of the app that `handleVotingUpdate` can touch. -/
structure AppState where
  liveVoteCount : Nat
  insightsDisplay : List Insight
  analyticsDisplay : AnalyticsDisplay
  demographicsDisplay : DemDisplay
deriving DecidableEq

/-- `updateVotes`: `this.liveVoteCount = election.current_turnout || this.liveVoteCount`
(a missing or zero turnout keeps the previous count — JavaScript `||`). -/
def updateVotes (e : ElectionData) (v : Nat) : Nat :=
  match e.current_turnout with
  | some t => if t = 0 then v else t
  | none => v

/-- `updateAIInsights`: `if (!insights?.length) return;` — an empty list
leaves both insight containers untouched; a non-empty list replaces their
content wholesale. -/
def updateAIInsights (ins : List Insight) (s : AppState) : AppState :=
  if ins.length = 0 then s else { s with insightsDisplay := ins }

/-- `updateAnalytics`: recomputes all four stat tiles from the incoming
`analytics` sub-tree.  `totalVotes` sums `candidates[].votes` (`'0'` when
`candidates` is missing), `totalInsights` is `ai_insights.length` (`'0'`
when missing), `avgConfidencePct` is `Math.round(confidence * 100)` when
`ai_predictions.confidence` is present and truthy (`'N/A'` otherwise),
`highImportance` is the maximum numeric `importance` among the insights
(`'N/A'` when there is none). -/
def updateAnalytics (a : AnalyticsData) : AnalyticsDisplay where
  totalVotes :=
    match a.candidates with
    | some cs => (cs.map Candidate.votes).sum
    | none => 0
  totalInsights :=
    match a.ai_insights with
    | some l => l.length
    | none => 0
  avgConfidencePct :=
    match a.ai_predictions with
    | some p =>
      match p.confidence with
      | some c => if c = 0 then none else some (round (c * 100))
      | none => none
    | none => none
  highImportance :=
    match a.ai_insights with
    | some l => (l.filterMap Insight.importance).max?
    | none => none

/-- `updateDemographicChartsData`: each chart's data is rebuilt from the
incoming `demographics` sub-tree, with `{}` (empty counts) when a
sub-field is missing. -/
def updateDemographicChartsData (d : Demographics) : DemDisplay where
  ageCounts := (d.age_groups.bind AnalyticsDemoBuckets.counts).getD []
  genderCounts := (d.gender.bind AnalyticsDemoBuckets.counts).getD []
  locationCounts := (d.locations.bind AnalyticsDemoLocations.top_10_counts).getD []

/-- `VotingAnalyticsApp.handleVotingUpdate` in the initialized state:

```js
if (data.election_data) this.updateVotes(data.election_data);
if (data.ai_insights) this.updateAIInsights(data.ai_insights);
if (data.analytics) {
  this.updateAnalytics(data.analytics);
  if (data.analytics.demographics)
    this.updateDemographicChartsData(data.analytics.demographics);
}
``` -/
def handleVotingUpdate (d : VotingPayload) (s : AppState) : AppState :=
  let s1 :=
    match d.election_data with
    | some e => { s with liveVoteCount := updateVotes e s.liveVoteCount }
    | none => s
  let s2 :=
    match d.ai_insights with
    | some ins => updateAIInsights ins s1
    | none => s1
  match d.analytics with
  | some a =>
    let s3 := { s2 with analyticsDisplay := updateAnalytics a }
    match a.demographics with
    | some dem => { s3 with demographicsDisplay := updateDemographicChartsData dem }
    | none => s3
  | none => s2

/-! ## `src/script.js` — prediction updates and the transaction feed -/

/-- One entry of `data.predictions`. -/
structure PredEntry where
  name : String
  probability : ℚ
deriving DecidableEq

/-- The `prediction_update` payload. -/
structure PredictionPayload where
  predictions : Option (List PredEntry)
  leading_candidate : Option String
  confidence : Option ℚ
deriving DecidableEq

/-- Rendered prediction banner: the text shows the leading candidate and
the first prediction's probability; the meter shows `data.confidence`
verbatim (even when absent, in which case the source renders the string
`"undefined%"`, modelled as `some none`). -/
structure PredictionDisplay where
  predictionText : Option (Option String × ℚ)
  confidenceMeter : Option (Option ℚ)
deriving DecidableEq

/-- `VotingAnalyticsApp.handlePredictionUpdate`:

```js
if (!data || !data.predictions || data.predictions.length === 0) {
  console.warn('handlePredictionUpdate: No valid prediction data received.', data);
  return;
}
```
then rewrites the banner from `data.leading_candidate`,
`data.predictions[0].probability` and `data.confidence`. -/
def handlePredictionUpdate (d : PredictionPayload) (s : PredictionDisplay) :
    PredictionDisplay :=
  match d.predictions with
  | none => s
  | some [] => s
  | some (p :: _) =>
    { predictionText := some (d.leading_candidate, p.probability),
      confidenceMeter := some d.confidence }

/-- A transaction of the live feed. -/
structure Tx where
  tx_hash : String
  candidate_id : Nat
  gas_used : Nat
deriving DecidableEq

/-- The trailing `while (feedContainer.children.length > 5)
feedContainer.lastChild.remove();` loop of `handleNewTransaction`. -/
def trimFeed (l : List Tx) : List Tx :=
  if 5 < l.length then trimFeed l.dropLast else l
termination_by l.length
decreasing_by
  simp only [List.length_dropLast]
  omega

/-- `VotingAnalyticsApp.handleNewTransaction`: if the event carries a
`transaction`, prepend it to the feed and trim the feed back to five
entries; otherwise do nothing. -/
def handleNewTransaction (e : Option Tx) (feed : List Tx) : List Tx :=
  match e with
  | none => feed
  | some tx => trimFeed (tx :: feed)

end ScriptJs

/-!
# Supporting lemmas
-/

theorem charsPrefix_iff (n h : List Char) :
    charsPrefix n h = true ↔ n <+: h := by
  induction n generalizing h with
  | nil => simp [charsPrefix]
  | cons a as ih =>
    cases h with
    | nil => simp [charsPrefix]
    | cons b bs =>
      simp [charsPrefix, List.cons_prefix_cons, ih, Bool.and_eq_true,
        beq_iff_eq]

theorem occursIn_iff (n h : List Char) :
    occursIn n h = true ↔ n <:+: h := by
  induction h with
  | nil =>
    simp [occursIn, charsPrefix_iff]
  | cons c rest ih =>
    simp [occursIn, Bool.or_eq_true, charsPrefix_iff, ih,
      List.infix_cons_iff]

namespace Yatish

theorem runFailures_attempts (n : Nat) :
    (runFailures n).reconnectAttempts = n := by
  induction n with
  | zero => rfl
  | succ n ih => simp [runFailures, handleConnectionError, ih]

theorem yDelay_mono {i j : Nat} (h : i ≤ j) : yDelay i ≤ yDelay j := by
  unfold yDelay
  exact min_le_min le_rfl
    (Nat.mul_le_mul_right _ (Nat.pow_le_pow_right (by norm_num) h))

theorem yDelay_le (k : Nat) : yDelay k ≤ 30000 :=
  min_le_left _ _

theorem requestGo_delays {α : Type} (outcomes : List (Option α)) :
    ∀ a : Nat,
      (requestGo a outcomes).2.length ≤ maxRetries - a ∧
      (∀ d ∈ (requestGo a outcomes).2, requestDelay (a + 1) ≤ d ∧ d ≤ 30000) ∧
      List.Pairwise (· ≤ ·) (requestGo a outcomes).2 := by
  induction outcomes with
  | nil =>
    intro a
    simp [requestGo]
  | cons o rest ih =>
    intro a
    cases o with
    | some v => simp [requestGo]
    | none =>
      by_cases h : a + 1 > maxRetries
      · simp [requestGo, h]
      · have hd : requestDelay (a + 1) ≤ 30000 := min_le_left _ _
        have hmono : requestDelay (a + 1) ≤ requestDelay (a + 2) := by
          unfold requestDelay
          exact min_le_min le_rfl
            (Nat.mul_le_mul_right _
              (Nat.pow_le_pow_right (by norm_num) (by omega)))
        obtain ⟨ihlen, ihmem, ihpair⟩ := ih (a + 1)
        refine ⟨?_, ?_, ?_⟩
        · simp only [requestGo, h, if_false]
          simp only [List.length_cons]
          omega
        · intro d hdmem
          simp only [requestGo, h, if_false, List.mem_cons] at hdmem
          rcases hdmem with rfl | hdmem
          · exact ⟨le_rfl, hd⟩
          · exact ⟨le_trans hmono (ihmem d hdmem).1, (ihmem d hdmem).2⟩
        · simp only [requestGo, h, if_false]
          exact List.pairwise_cons.mpr
            ⟨fun d hdmem => le_trans hmono (ihmem d hdmem).1, ihpair⟩

end Yatish

namespace ScriptJs

theorem stepE_inv {e : WSEvent} {s s1 : WSState}
    (h : stepE e s = some s1) (hs : wsInv s) : wsInv s1 := by
  cases e with
  | timerFire =>
    by_cases h0 : s.timers = 0 <;>
      simp [stepE, h0] at h
    subst h
    unfold wsInv at hs ⊢
    simp only
    omega
  | resolveSuccess =>
    by_cases h0 : s.inFlight = 0 <;>
      simp [stepE, h0, onConnect] at h
    subst h
    unfold wsInv at hs ⊢
    simp only
    omega
  | resolveError =>
    by_cases h0 : s.inFlight = 0 <;>
      simp [stepE, h0] at h
    subst h
    unfold wsInv at hs ⊢
    unfold handleReconnect
    by_cases hr : s.retries < maxRetries
    · rw [if_pos hr]
      simp only
      omega
    · rw [if_neg hr]
      simp only
      omega

theorem runWS_inv (evs : List WSEvent) :
    ∀ s s1, runWS evs s = some s1 → wsInv s → wsInv s1 := by
  induction evs with
  | nil =>
    intro s s1 h hs
    simp [runWS] at h
    exact h ▸ hs
  | cons e rest ih =>
    intro s s1 h hs
    unfold runWS at h
    cases hst : stepE e s with
    | none => simp [hst] at h
    | some s2 =>
      simp [hst] at h
      exact ih s2 s1 h (stepE_inv hst hs)

theorem handleVotingUpdate_eq (p : VotingPayload) (s : AppState) :
    handleVotingUpdate p s =
      { liveVoteCount :=
          match p.election_data with
          | some e => updateVotes e s.liveVoteCount
          | none => s.liveVoteCount
        insightsDisplay :=
          match p.ai_insights with
          | some l => if l.length = 0 then s.insightsDisplay else l
          | none => s.insightsDisplay
        analyticsDisplay :=
          match p.analytics with
          | some a => updateAnalytics a
          | none => s.analyticsDisplay
        demographicsDisplay :=
          match p.analytics with
          | some a =>
            match a.demographics with
            | some dem => updateDemographicChartsData dem
            | none => s.demographicsDisplay
          | none => s.demographicsDisplay } := by
  obtain ⟨pe, pi, pa⟩ := p
  unfold handleVotingUpdate updateAIInsights
  cases pe <;> cases pi <;> cases pa <;> simp
  all_goals
    try (rename_i a
         cases hd : a.demographics <;> simp [hd])
  all_goals (split <;> simp_all)

theorem trimFeed_eq_take (l : List Tx) : trimFeed l = l.take 5 := by
  induction l using trimFeed.induct with
  | case1 l h ih =>
    rw [trimFeed, if_pos h, ih]
    rw [List.dropLast_eq_take, List.take_take]
    congr 1
    omega
  | case2 l h =>
    rw [trimFeed, if_neg h, List.take_of_length_le]
    omega

end ScriptJs

/-!
# Claims
-/

/-- C1, counterexample: in the variant with exponential backoff
(`src/yatish/script.js`), the 6th consecutive connection failure does NOT
trigger the polling fallback — `startPollingFallback` runs only when the
counter exceeds 6, i.e. on the 7th failure.  The claim that "the 6th
failure triggers fallback-polling mode" is therefore false at this input. -/
theorem c1_counterexample :
    (Yatish.runFailures 6).pollingStarted = false := by decide

/-- C1, amended: with base delay 1000 ms and `maxDelay` 30000 ms, the
delay scheduled after the k-th consecutive failure is
`min(maxDelay, base × 2^k)` — concretely 2000, 4000, 8000, 16000, 30000
(capped) ms for k = 1..5 — and the polling fallback is first triggered by
the 7th failure (counter > 6), not the 6th. -/
theorem c1_thm :
    (∀ k, (Yatish.handleConnectionError (Yatish.runFailures k)).2.1
        = min 30000 (2 ^ (k + 1) * 1000)) ∧
    (List.range 5).map
        (fun i => (Yatish.handleConnectionError (Yatish.runFailures i)).2.1)
      = [2000, 4000, 8000, 16000, 30000] ∧
    (Yatish.runFailures 6).pollingStarted = false ∧
    (Yatish.runFailures 7).pollingStarted = true := by
  refine ⟨?_, by decide, by decide, by decide⟩
  intro k
  simp [Yatish.handleConnectionError, Yatish.runFailures_attempts,
    Yatish.yDelay, Yatish.maxDelay]

/-- C2, counterexample: in `src/yatish/script.js`, after the 7th failure
the polling fallback is active, yet `handleConnectionError` still
unconditionally schedules `setTimeout(() => this.connect(), delay)` — the
push transport IS re-attempted after entering fallback, refuting "never
again attempts a push-transport connection". -/
theorem c2_counterexample :
    (Yatish.runFailures 7).pollingStarted = true ∧
    (Yatish.handleConnectionError (Yatish.runFailures 7)).2.2 = true ∧
    (Yatish.handleConnectionError (Yatish.runFailures 7)).1.pollingStarted
      = true := by decide

/-- C2, amended: in the `src/script.js` variant (and the identical
`src/unnamed` variants), once the retry counter has reached the bound, a
further connection error starts fallback polling and schedules no
reconnect timer; and from a state with no attempt in flight and no pending
timer, no transport event can ever occur again, so the push transport is
never re-attempted for the page's lifetime.  The yatish variant violates
the claim (see the counterexample). -/
theorem c2_thm :
    ∀ s : ScriptJs.WSState, ScriptJs.maxRetries ≤ s.retries →
      (∀ s1, ScriptJs.stepE .resolveError s = some s1 →
        s1.polling = true ∧ s1.timers = s.timers) ∧
      (s.inFlight = 0 → s.timers = 0 →
        ∀ e, ScriptJs.stepE e s = none) := by
  intro s hr
  constructor
  · intro s1 h
    by_cases h0 : s.inFlight = 0
    · simp [ScriptJs.stepE, h0] at h
    · simp [ScriptJs.stepE, h0] at h
      have hnr : ¬ s.retries < ScriptJs.maxRetries := by omega
      rw [ScriptJs.handleReconnect, if_neg hnr] at h
      subst h
      exact ⟨rfl, rfl⟩
  · intro h0 ht e
    cases e <;> simp [ScriptJs.stepE, h0, ht]

/-- C2, witness: instantiating the amended theorem at the state with one
in-flight attempt and an exhausted retry counter. -/
theorem c2_witness :
    (⟨0, 0, 5, true⟩ : ScriptJs.WSState).polling = true ∧
    (⟨0, 0, 5, true⟩ : ScriptJs.WSState).timers
      = (⟨1, 0, 5, false⟩ : ScriptJs.WSState).timers :=
  (c2_thm ⟨1, 0, 5, false⟩ (by decide)).1 ⟨0, 0, 5, true⟩ (by decide)

/-- C4: for any number N of consecutive failures below the reconnect
bound, the reconnect delays computed by the yatish backoff are
monotonically non-decreasing in the failure index and every delay is at
most `maxDelay` = 30000 ms. -/
theorem c4_thm :
    ∀ N i j : Nat, N < 5 → 1 ≤ i → i ≤ j → j ≤ N →
      (Yatish.handleConnectionError (Yatish.runFailures (i - 1))).2.1
        ≤ (Yatish.handleConnectionError (Yatish.runFailures (j - 1))).2.1 ∧
      (Yatish.handleConnectionError (Yatish.runFailures (j - 1))).2.1
        ≤ 30000 := by
  have hk : ∀ k, (Yatish.handleConnectionError (Yatish.runFailures k)).2.1
      = Yatish.yDelay (k + 1) := by
    intro k
    simp [Yatish.handleConnectionError, Yatish.runFailures_attempts]
  intro N i j _ _ hij _
  rw [hk, hk]
  exact ⟨Yatish.yDelay_mono (by omega), Yatish.yDelay_le _⟩

/-- C4, witness: the delays after the 1st and 3rd of four consecutive
failures are non-decreasing and capped. -/
theorem c4_witness :
    (Yatish.handleConnectionError (Yatish.runFailures 0)).2.1
      ≤ (Yatish.handleConnectionError (Yatish.runFailures 2)).2.1 ∧
    (Yatish.handleConnectionError (Yatish.runFailures 2)).2.1 ≤ 30000 :=
  c4_thm 4 1 3 (by decide) (by decide) (by decide) (by decide)

/-- C3: along any sequence of connect/error/timeout events from the
initial `connect()`, at most one connection attempt is in flight, and
moreover an attempt and a pending reconnect timer never coexist — a new
attempt is only scheduled (as a timer, by the error handler) after the
previous attempt has resolved with success, error or timeout. -/
theorem c3_thm :
    ∀ (evs : List ScriptJs.WSEvent) (s1 : ScriptJs.WSState),
      ScriptJs.runWS evs ScriptJs.wsInit = some s1 →
      s1.inFlight ≤ 1 ∧ s1.inFlight + s1.timers ≤ 1 := by
  intro evs s1 h
  have hinv := ScriptJs.runWS_inv evs ScriptJs.wsInit s1 h
    (by simp [ScriptJs.wsInv, ScriptJs.wsInit])
  unfold ScriptJs.wsInv at hinv
  omega

/-- C3, witness: after an error and the subsequent timer firing, exactly
one attempt is in flight and no timer is pending. -/
theorem c3_witness :
    (⟨1, 0, 1, false⟩ : ScriptJs.WSState).inFlight ≤ 1 ∧
    (⟨1, 0, 1, false⟩ : ScriptJs.WSState).inFlight
      + (⟨1, 0, 1, false⟩ : ScriptJs.WSState).timers ≤ 1 :=
  c3_thm [.resolveError, .timerFire] ⟨1, 0, 1, false⟩ (by decide)

/-- C5: whenever a connection attempt resolves successfully, the retry
counter is reset to 0 immediately — whatever its previous value — and the
success handler emits `request_live_data`, the initial-full-snapshot
request; in particular after three failed attempts a success leaves the
counter at 0. -/
theorem c5_thm :
    (∀ s s1 : ScriptJs.WSState,
      ScriptJs.stepE .resolveSuccess s = some s1 → s1.retries = 0) ∧
    (∀ s : ScriptJs.WSState,
      "request_live_data" ∈ (ScriptJs.onConnect s).2 ∧
      (ScriptJs.onConnect s).1.retries = 0) ∧
    ScriptJs.runWS [.resolveError, .timerFire, .resolveError, .timerFire,
        .resolveError, .timerFire, .resolveSuccess] ScriptJs.wsInit
      = some ⟨0, 0, 0, false⟩ := by
  refine ⟨?_, ?_, by decide⟩
  · intro s s1 h
    by_cases h0 : s.inFlight = 0
    · simp [ScriptJs.stepE, h0] at h
    · simp [ScriptJs.stepE, h0, ScriptJs.onConnect] at h
      subst h
      rfl
  · intro s
    exact ⟨by simp [ScriptJs.onConnect, ScriptJs.onConnectEmits], rfl⟩

/-- C5, witness: a success resolving while the counter stands at 3 resets
it to 0. -/
theorem c5_witness : (⟨0, 0, 0, false⟩ : ScriptJs.WSState).retries = 0 :=
  c5_thm.1 ⟨1, 0, 3, false⟩ ⟨0, 0, 0, false⟩ (by decide)

/-- C6, counterexample: an update whose `ai_insights` field is present but
an empty list does NOT replace the stored insights — `updateAIInsights`
early-returns on an empty list, so the stored insights keep their previous
value instead of becoming `[]`, refuting "each category sub-tree present
in the payload wholly replaces the stored value". -/
theorem c6_counterexample :
    (ScriptJs.handleVotingUpdate ⟨none, some [], none⟩
        ⟨0, [⟨"Turnout surge", "Turnout is rising", none, none⟩],
          ⟨0, 0, none, none⟩, ⟨[], [], []⟩⟩).insightsDisplay ≠ [] ∧
    (ScriptJs.handleVotingUpdate ⟨none, some [], none⟩
        ⟨0, [⟨"Turnout surge", "Turnout is rising", none, none⟩],
          ⟨0, 0, none, none⟩, ⟨[], [], []⟩⟩).insightsDisplay
      = [⟨"Turnout surge", "Turnout is rising", none, none⟩] := by
  constructor
  · simp [ScriptJs.handleVotingUpdate, ScriptJs.updateAIInsights]
  · rfl

/-- C6, amended: each category sub-tree present in an update payload
wholly replaces the corresponding stored display value and absent
sub-trees are left unchanged, with two exceptions visible in the code: an
`ai_insights` list that is present but empty is ignored (previous insights
kept), and an `election_data` whose `current_turnout` is absent or zero
keeps the previous live vote count.  The back-to-back scenario holds as
stated when the first payload's insights are non-empty: after the second
update (which lacks `insights`), the stored insights equal the first
message's and the analytics display equals the second's. -/
theorem c6_thm :
    (∀ (p : ScriptJs.VotingPayload) (s : ScriptJs.AppState),
      (p.ai_insights = none →
        (ScriptJs.handleVotingUpdate p s).insightsDisplay
          = s.insightsDisplay) ∧
      (∀ l, p.ai_insights = some l → l ≠ [] →
        (ScriptJs.handleVotingUpdate p s).insightsDisplay = l) ∧
      (p.analytics = none →
        (ScriptJs.handleVotingUpdate p s).analyticsDisplay
            = s.analyticsDisplay ∧
        (ScriptJs.handleVotingUpdate p s).demographicsDisplay
            = s.demographicsDisplay) ∧
      (∀ a, p.analytics = some a →
        (ScriptJs.handleVotingUpdate p s).analyticsDisplay
            = ScriptJs.updateAnalytics a ∧
        (∀ dem, a.demographics = some dem →
          (ScriptJs.handleVotingUpdate p s).demographicsDisplay
            = ScriptJs.updateDemographicChartsData dem) ∧
        (a.demographics = none →
          (ScriptJs.handleVotingUpdate p s).demographicsDisplay
            = s.demographicsDisplay)) ∧
      (p.election_data = none →
        (ScriptJs.handleVotingUpdate p s).liveVoteCount
          = s.liveVoteCount) ∧
      (∀ e t, p.election_data = some e → e.current_turnout = some t →
        t ≠ 0 →
        (ScriptJs.handleVotingUpdate p s).liveVoteCount = t)) ∧
    (∀ (p1 p2 : ScriptJs.VotingPayload) (s : ScriptJs.AppState)
        (l : List Insight) (a2 : ScriptJs.AnalyticsData),
      p1.ai_insights = some l → l ≠ [] → p2.ai_insights = none →
      p2.analytics = some a2 →
      (ScriptJs.handleVotingUpdate p2
          (ScriptJs.handleVotingUpdate p1 s)).insightsDisplay = l ∧
      (ScriptJs.handleVotingUpdate p2
          (ScriptJs.handleVotingUpdate p1 s)).analyticsDisplay
        = ScriptJs.updateAnalytics a2) := by
  constructor
  · intro p s
    refine ⟨?_, ?_, ?_, ?_, ?_, ?_⟩
    · intro h
      rw [ScriptJs.handleVotingUpdate_eq]
      simp [h]
    · intro l hl hne
      rw [ScriptJs.handleVotingUpdate_eq]
      simp [hl, List.length_eq_zero, hne]
    · intro h
      rw [ScriptJs.handleVotingUpdate_eq]
      simp [h]
    · intro a ha
      rw [ScriptJs.handleVotingUpdate_eq]
      refine ⟨by simp [ha], ?_, ?_⟩
      · intro dem hdem
        simp [ha, hdem]
      · intro hdem
        simp [ha, hdem]
    · intro h
      rw [ScriptJs.handleVotingUpdate_eq]
      simp [h]
    · intro e t he ht htne
      rw [ScriptJs.handleVotingUpdate_eq]
      simp [he, ScriptJs.updateVotes, ht, htne]
  · intro p1 p2 s l a2 h1 hne h2 ha2
    constructor
    · rw [ScriptJs.handleVotingUpdate_eq]
      simp only [h2]
      rw [ScriptJs.handleVotingUpdate_eq]
      simp [h1, List.length_eq_zero, hne]
    · rw [ScriptJs.handleVotingUpdate_eq]
      simp [ha2]

/-- C6, witness: concrete back-to-back updates — the second lacks
`ai_insights` but carries an `analytics` sub-tree; the stored insights are
the first message's and the analytics display is recomputed from the
second. -/
theorem c6_witness :
    (ScriptJs.handleVotingUpdate ⟨none, none, some ⟨none, none, none, none⟩⟩
        (ScriptJs.handleVotingUpdate
          ⟨none, some [⟨"Lead change", "New front-runner", none, none⟩], none⟩
          ⟨0, [], ⟨7, 7, none, none⟩, ⟨[], [], []⟩⟩)).insightsDisplay
      = [⟨"Lead change", "New front-runner", none, none⟩] ∧
    (ScriptJs.handleVotingUpdate ⟨none, none, some ⟨none, none, none, none⟩⟩
        (ScriptJs.handleVotingUpdate
          ⟨none, some [⟨"Lead change", "New front-runner", none, none⟩], none⟩
          ⟨0, [], ⟨7, 7, none, none⟩, ⟨[], [], []⟩⟩)).analyticsDisplay
      = ScriptJs.updateAnalytics ⟨none, none, none, none⟩ :=
  c6_thm.2 ⟨none, some [⟨"Lead change", "New front-runner", none, none⟩], none⟩
    ⟨none, none, some ⟨none, none, none, none⟩⟩
    ⟨0, [], ⟨7, 7, none, none⟩, ⟨[], [], []⟩⟩
    [⟨"Lead change", "New front-runner", none, none⟩]
    ⟨none, none, none, none⟩ rfl (by simp) rfl rfl

/-- C7, counterexample: a malformed `enhanced_voting_update` whose
`analytics` sub-tree is missing all required fields does alter the stored
display — `updateAnalytics` performs no validation and rewrites the four
stat tiles with the defaults `'0'`/`'N/A'`, clobbering the previously
displayed values; the claim that every malformed payload leaves the stored
state unchanged is false at this input. -/
theorem c7_counterexample :
    ScriptJs.handleVotingUpdate ⟨none, none, some ⟨none, none, none, none⟩⟩
        ⟨0, [], ⟨42, 3, some 80, some 9⟩, ⟨[], [], []⟩⟩
      ≠ ⟨0, [], ⟨42, 3, some 80, some 9⟩, ⟨[], [], []⟩⟩ ∧
    (ScriptJs.handleVotingUpdate ⟨none, none, some ⟨none, none, none, none⟩⟩
        ⟨0, [], ⟨42, 3, some 80, some 9⟩, ⟨[], [], []⟩⟩).analyticsDisplay
      = ⟨0, 0, none, none⟩ := by
  constructor
  · decide
  · rfl

/-- C7, amended: malformed `prediction_update` payloads (missing or empty
`predictions` array) are dropped by the validation guard with all stored
state unchanged; but `enhanced_voting_update` payloads are not validated —
an `analytics` sub-tree with missing required fields is still applied and
replaces the four stat tiles with the default placeholders. -/
theorem c7_thm :
    (∀ (d : ScriptJs.PredictionPayload) (s : ScriptJs.PredictionDisplay),
      d.predictions = none ∨ d.predictions = some [] →
      ScriptJs.handlePredictionUpdate d s = s) ∧
    (∀ s : ScriptJs.AppState,
      ScriptJs.handleVotingUpdate
          ⟨none, none, some ⟨none, none, none, none⟩⟩ s
        = { s with analyticsDisplay := ⟨0, 0, none, none⟩ }) := by
  constructor
  · intro d s h
    rcases h with h | h <;> simp [ScriptJs.handlePredictionUpdate, h]
  · intro s
    rw [ScriptJs.handleVotingUpdate_eq]
    rfl

/-- C7, witness: a prediction payload with no `predictions` field leaves
the prediction display untouched. -/
theorem c7_witness :
    ScriptJs.handlePredictionUpdate ⟨none, none, none⟩ ⟨none, none⟩
      = ⟨none, none⟩ :=
  c7_thm.1 ⟨none, none, none⟩ ⟨none, none⟩ (Or.inl rfl)

/-- C8: in polling-fallback mode the pulls run on the fixed 10-second
interval; each pull is retried inside `APIService.request` with the capped
exponential-backoff delay family (six failed fetches produce exactly the
delays 1000, 2000, 4000, 8000, 16000 ms and then the rejection), every
retry run uses at most five backoff sleeps with non-decreasing delays
capped at 30000 ms, and a tick both of whose used pulls were rejected
changes nothing — the exhausted pull is dropped without any dispatch. -/
theorem c8_thm :
    (∀ (s : Yatish.PollLog) (pr : Option Unit),
      Yatish.pollTick none pr none s = s) ∧
    (∀ rest : List (Option Unit),
      Yatish.request (none :: none :: none :: none :: none :: none :: rest)
        = (none, [1000, 2000, 4000, 8000, 16000])) ∧
    (∀ (α : Type) (outcomes : List (Option α)),
      (Yatish.request outcomes).2.length ≤ 5 ∧
      List.Pairwise (· ≤ ·) (Yatish.request outcomes).2 ∧
      (∀ d ∈ (Yatish.request outcomes).2, d ≤ 30000)) ∧
    Yatish.pollIntervalMs = 10000 := by
  refine ⟨fun s pr => rfl, fun rest => rfl, ?_, rfl⟩
  intro α outcomes
  obtain ⟨hlen, hmem, hpair⟩ := Yatish.requestGo_delays outcomes 0
  exact ⟨hlen, hpair, fun d hd => (hmem d hd).2⟩

/-- C8, witness: in a run with two failed fetches, the first backoff delay
is 1000 ms and it respects the 30000 ms cap. -/
theorem c8_witness :
    1000 ∈ (Yatish.request [(none : Option Unit), none]).2 ∧
    (1000 : Nat) ≤ 30000 :=
  ⟨by decide, (c8_thm.2.2.1 Unit [none, none]).2.2 1000 (by decide)⟩

/-- C9: the constituency search returns nothing when the trimmed query has
fewer than two characters, and otherwise returns at most ten constituency
names, each taken from the loaded list and each containing the trimmed
query as a case-insensitive substring. -/
theorem c9_thm :
    ∀ (cs : List String) (q : String),
      ((jsTrim q).length < 2 → ScriptJs.search cs q = []) ∧
      (ScriptJs.search cs q).length ≤ 10 ∧
      (∀ r ∈ ScriptJs.search cs q,
        r ∈ cs ∧ (jsTrim q).toLower.toList <:+: r.toLower.toList) := by
  intro cs q
  by_cases h : (jsTrim q).length < 2
  · simp [ScriptJs.search, h]
  · refine ⟨fun hc => absurd hc h, ?_, ?_⟩
    · simp only [ScriptJs.search, h, if_false]
      exact List.length_take_le 10 _
    · intro r hr
      simp only [ScriptJs.search, h, if_false] at hr
      have hmem := List.mem_filter.mp (List.mem_of_mem_take hr)
      refine ⟨hmem.1, ?_⟩
      have hinc : occursIn (jsTrim q).toLower.toList r.toLower.toList = true :=
        hmem.2
      exact (occursIn_iff _ _).mp hinc

/-- C9, witness: a one-character query returns no results. -/
theorem c9_witness : ScriptJs.search ["Adoni", "Akividu"] "a" = [] :=
  (c9_thm ["Adoni", "Akividu"] "a").1 (by decide)

/-- C10: starting from a feed of at most five entries, any sequence of
`new_transaction` events leaves the feed with at most five entries, and
each event carrying a transaction prepends it (newest first) while
dropping the oldest entries beyond five. -/
theorem c10_thm :
    ∀ (events : List (Option ScriptJs.Tx)) (feed : List ScriptJs.Tx),
      feed.length ≤ 5 →
      (events.foldl
          (fun f e => ScriptJs.handleNewTransaction e f) feed).length ≤ 5 ∧
      (∀ (tx : ScriptJs.Tx) (f : List ScriptJs.Tx),
        ScriptJs.handleNewTransaction (some tx) f = (tx :: f).take 5) := by
  have aux : ∀ (events : List (Option ScriptJs.Tx))
      (feed : List ScriptJs.Tx), feed.length ≤ 5 →
      (events.foldl
          (fun f e => ScriptJs.handleNewTransaction e f) feed).length ≤ 5 := by
    intro events
    induction events with
    | nil =>
      intro feed h
      simpa using h
    | cons e rest ih =>
      intro feed h
      simp only [List.foldl_cons]
      apply ih
      cases e with
      | none => simpa [ScriptJs.handleNewTransaction] using h
      | some tx =>
        simp [ScriptJs.handleNewTransaction, ScriptJs.trimFeed_eq_take]
  intro events feed hfeed
  exact ⟨aux events feed hfeed,
    fun tx f => by
      simp [ScriptJs.handleNewTransaction, ScriptJs.trimFeed_eq_take]⟩

/-- C10, witness: one transaction event on an empty feed leaves at most
five entries. -/
theorem c10_witness :
    (([some ⟨"0xabc123", 1, 21000⟩] : List (Option ScriptJs.Tx)).foldl
        (fun f e => ScriptJs.handleNewTransaction e f) []).length ≤ 5 :=
  (c10_thm [some ⟨"0xabc123", 1, 21000⟩] [] (by decide)).1

end AvalancheAnalytics
